import Mathlib

/-!
Verification development for the goal progress and statistics engine of the
life-on-track repository.

The embedding models `src/server/src/routes/goals.ts` (the goal lifecycle,
progress-log, and statistics code), `getWeekStart` from
`src/server/src/db/index.ts`, and the variant `calculateGoalStats` found in
`src/unnamed/part_005`.

Modelling conventions:
- Calendar dates (`log_date` strings `YYYY-MM-DD`, and "today") are epoch-day
  integers (days since 1970-01-01, UTC).  ISO date strings compare
  lexicographically exactly as their day numbers compare, `getTime()`
  differences divided by 86 400 000 are day differences, and equality of date
  strings is equality of day numbers, so `Int` is a faithful carrier.
- JavaScript numbers are modelled as `Int` where the code only holds integers
  and as `Rat` where the code divides (velocity etc.).  `Math.round x` is
  `⌊x + 1/2⌋` (`jsRound`), `Math.ceil` is `Rat.ceil`, `Math.min`/`Math.max`
  are `jsMin`/`jsMax`.  Because the ambient library marks `Rat.add`, `Rat.mul`
  and `Rat.inv` irreducible (opaque to kernel evaluation), rational arithmetic
  is spelled with `mkRat`-based helpers (`ratAdd`, `ratMul`, `ratDiv`,
  `ratOfInt`); the theorems `ratAdd_eq`, `ratMul_eq`, `ratDiv_eq`,
  `ratOfInt_eq`, `jsRound_eq`, `ratCeil_eq`, `jsMin_eq` and `jsMax_eq` prove
  these helpers equal the standard operations.  The stable JS
  `Array.prototype.sort` is modelled by the stable insertion sort
  `sortByDate`.
- SQL `NULL` / absent JS values are `Option`.  The HTTP handlers' fallible
  paths return `Except ApiError`.
- The database tables are lists inside a `Store`; SQL point updates and
  upserts become list maps/appends, and `SELECT ... LIMIT 1` with an order
  becomes an explicit maximum.
-/

/-- Goal type: `goal_type` column, one of `reading | frequency | numeric`. -/
inductive GoalType where
  | reading
  | frequency
  | numeric
deriving DecidableEq, Repr

/-- Frequency period: `frequency_period` column, `daily | weekly | monthly`. -/
inductive FreqPeriod where
  | daily
  | weekly
  | monthly
deriving DecidableEq, Repr

/-- Error responses of the goal routes: 404 (`Goal not found` /
`Goal log not found`) and 400 (`Value is required`). -/
inductive ApiError where
  | notFound
  | validationError
deriving DecidableEq, Repr

deriving instance DecidableEq for Except

/-- A goal record (row of the `goals` table / the `Goal` API object;
`goalRowToGoal` is a pure field renaming so one structure serves for both). -/
structure Goal where
  id : String
  title : String
  goalType : GoalType
  targetValue : Int
  unit : String
  currentValue : Int
  totalPages : Option Int
  currentPage : Int
  frequencyPeriod : Option FreqPeriod
  targetDate : Option Int
  isActive : Bool
deriving DecidableEq, Repr

/-- A progress-log record (row of the `goal_logs` table). -/
structure GoalLog where
  id : Nat
  goalId : String
  logDate : Int
  value : Int
  note : Option String
deriving DecidableEq, Repr

/-- The persistent store: the `goals` and `goal_logs` tables, plus the
autoincrement counter for log ids. -/
structure Store where
  goals : List Goal
  logs : List GoalLog
  nextLogId : Nat
deriving DecidableEq, Repr

/-- `getWeekStart` from `src/server/src/db/index.ts`: move back to the Sunday
of the week containing `d` (`d.getDate() - d.getDay()`; JS `getDay` is
0 = Sunday).  Epoch day 0 (1970-01-01) is a Thursday, so the JS weekday of
epoch day `d` is `(d + 4) % 7`. -/
def getWeekStart (d : Int) : Int :=
  d - (d + 4).emod 7

/-- Civil calendar from epoch day (Gregorian, proleptic): returns
`(year, month, day)`.  Used to model the `YYYY-MM` prefix taken from
`toISOString()`. -/
def civilFromDays (z0 : Int) : Int × Int × Int :=
  let z := z0 + 719468
  let era := z.fdiv 146097
  let doe := z - era * 146097
  let yoe := (doe - doe.fdiv 1460 + doe.fdiv 36524 - doe.fdiv 146096).fdiv 365
  let y := yoe + era * 400
  let doy := doe - (365 * yoe + yoe.fdiv 4 - yoe.fdiv 100)
  let mp := (5 * doy + 2).fdiv 153
  let d := doy - (153 * mp + 2).fdiv 5 + 1
  let m := mp + (if mp < 10 then 3 else -9)
  (y + (if m ≤ 2 then 1 else 0), m, d)

/-- Epoch day from a civil date `(year, month, day)`. -/
def daysFromCivil (y0 m d : Int) : Int :=
  let y := y0 - (if m ≤ 2 then 1 else 0)
  let era := y.fdiv 400
  let yoe := y - era * 400
  let doy := (153 * (m + (if 2 < m then -3 else 9)) + 2).fdiv 5 + d - 1
  let doe := yoe * 365 + yoe.fdiv 4 - yoe.fdiv 100 + doy
  era * 146097 + doe - 719468

/-- `new Date().toISOString().slice(0, 7) + '-01'`: the first day of the
month containing `today`. -/
def monthStart (today : Int) : Int :=
  let c := civilFromDays today
  daysFromCivil c.1 c.2.1 1

/-- `(n : ℚ)` spelled with `mkRat`, which the kernel can evaluate (the
ambient library marks `Rat.add`/`Rat.mul`/`Rat.inv` irreducible). -/
def ratOfInt (n : Int) : Rat := mkRat n 1

/-- Rational addition via `mkRat` (kernel-reducible; equals `+` on ℚ). -/
def ratAdd (a b : Rat) : Rat :=
  mkRat (a.num * (b.den : Int) + b.num * (a.den : Int)) (a.den * b.den)

/-- Rational multiplication via `mkRat` (kernel-reducible; equals `*`). -/
def ratMul (a b : Rat) : Rat := mkRat (a.num * b.num) (a.den * b.den)

/-- Rational division via `mkRat` (kernel-reducible; equals `/`, with the
usual `a / 0 = 0` convention). -/
def ratDiv (a b : Rat) : Rat :=
  if 0 ≤ b.num then mkRat (a.num * (b.den : Int)) (a.den * b.num.toNat)
  else mkRat (-(a.num * (b.den : Int))) (a.den * (-b.num).toNat)

/-- JavaScript `Math.round`: round half toward positive infinity,
`⌊x + 1/2⌋`. -/
def jsRound (q : Rat) : Int :=
  Rat.floor (ratAdd q (mkRat 1 2))

/-- JavaScript `Math.min` on integers. -/
def jsMin (a b : Int) : Int :=
  if a ≤ b then a else b

/-- JavaScript `Math.max` on integers. -/
def jsMax (a b : Int) : Int :=
  if a ≤ b then b else a

/-- `SELECT * FROM goals WHERE id = ?` (first match). -/
def findGoal (st : Store) (goalId : String) : Option Goal :=
  st.goals.find? (fun g => g.id == goalId)

/-- `SELECT * FROM goal_logs WHERE goal_id = ? AND log_date = ?`. -/
def findLogByDate (logs : List GoalLog) (goalId : String) (date : Int) : Option GoalLog :=
  logs.find? (fun l => l.goalId == goalId && l.logDate == date)

/-- `UPDATE goals SET ... WHERE id = ?`: apply `f` to the goal with this id. -/
def setGoal (st : Store) (goalId : String) (f : Goal → Goal) : Store :=
  { st with goals := st.goals.map (fun g => if g.id == goalId then f g else g) }

/-- The JS argument expression `note || null`: an absent or empty note is
stored as SQL `NULL`. -/
def jsNoteArg (note : Option String) : Option String :=
  match note with
  | some s => if s = "" then none else some s
  | none => none

/-- `INSERT INTO goal_logs ... ON CONFLICT(goal_id, log_date) DO UPDATE SET
value = excluded.value, note = COALESCE(excluded.note, note)`. -/
def upsertGoalLog (st : Store) (goalId : String) (date : Int) (value : Int)
    (noteArg : Option String) : Store :=
  if st.logs.any (fun l => l.goalId == goalId && l.logDate == date) then
    { st with logs := st.logs.map (fun l =>
        if l.goalId == goalId && l.logDate == date then
          { l with value := value,
                   note := match noteArg with
                           | some s => some s
                           | none => l.note }
        else l) }
  else
    { st with
      logs := st.logs ++ [{ id := st.nextLogId, goalId := goalId, logDate := date,
                            value := value, note := noteArg }],
      nextLogId := st.nextLogId + 1 }

/-- `SELECT COUNT(*) FROM goal_logs WHERE goal_id = ? AND log_date >= ?
AND value = 1`. -/
def countFrequencyLogs (logs : List GoalLog) (goalId : String) (periodStart : Int) : Nat :=
  (logs.filter (fun l => l.goalId == goalId && periodStart ≤ l.logDate && l.value == 1)).length

/-- The period-start conditional shared by the goal routes:
`frequency_period === 'weekly' ? getWeekStart() : === 'monthly' ?
firstOfMonth : dailyDate`.  The daily/fallback date differs per call site and
is passed in as `dailyDate`. -/
def periodStartFor (fp : Option FreqPeriod) (today : Int) (dailyDate : Int) : Int :=
  match fp with
  | some .weekly => getWeekStart today
  | some .monthly => monthStart today
  | _ => dailyDate

/-- Pick the later of two logs by `(log_date, id)` lexicographically. -/
def laterLog (a b : GoalLog) : GoalLog :=
  if a.logDate < b.logDate || (a.logDate == b.logDate && a.id < b.id) then b else a

/-- `SELECT value FROM goal_logs WHERE goal_id = ? ORDER BY log_date DESC,
id DESC LIMIT 1` followed by `row?.value || 0`. -/
def latestLogValue (logs : List GoalLog) (goalId : String) : Int :=
  match logs.filter (fun l => l.goalId == goalId) with
  | [] => 0
  | l :: ls => (ls.foldl laterLog l).value

/-- `POST /goals/:id/logs` (`LogProgress`): look the goal up, require a
value, upsert the log for `(goalId, date)`, recompute the goal's cached
value by type, and return the re-selected log and goal. -/
def logProgress (st : Store) (goalId : String) (value : Option Int)
    (note : Option String) (logDate : Option Int) (today : Int) :
    Except ApiError (GoalLog × Goal × Store) :=
  match findGoal st goalId with
  | none => .error .notFound
  | some goal =>
    match value with
    | none => .error .validationError
    | some v =>
      let date := logDate.getD today
      let st1 := upsertGoalLog st goalId date v (jsNoteArg note)
      let st2 :=
        match goal.goalType with
        | .reading => setGoal st1 goalId (fun g => { g with currentPage := v })
        | .frequency =>
          let ps := periodStartFor goal.frequencyPeriod today date
          let count := countFrequencyLogs st1.logs goalId ps
          setGoal st1 goalId (fun g => { g with currentValue := (count : Int) })
        | .numeric => setGoal st1 goalId (fun g => { g with currentValue := v })
      match findLogByDate st2.logs goalId date, findGoal st2 goalId with
      | some log, some g => .ok (log, g, st2)
      | _, _ => .error .notFound

/-- The partial-update body of `PATCH /goals/:id`: each field is present iff
the request supplied it (`!== undefined`).  `totalPages`/`targetDate` may be
supplied as `null`, hence the nested `Option`. -/
structure GoalUpdate where
  title : Option String := none
  targetValue : Option Int := none
  unit : Option String := none
  totalPages : Option (Option Int) := none
  currentPage : Option Int := none
  currentValue : Option Int := none
  targetDate : Option (Option Int) := none
  isActive : Option Bool := none
deriving DecidableEq, Repr

/-- Apply the `PATCH /goals/:id` field list: each of the eight accepted
columns is overwritten exactly when supplied.  `goal_type` is not in the
accepted list. -/
def applyGoalUpdate (u : GoalUpdate) (g : Goal) : Goal :=
  { g with
    title := u.title.getD g.title,
    targetValue := u.targetValue.getD g.targetValue,
    unit := u.unit.getD g.unit,
    totalPages := u.totalPages.getD g.totalPages,
    currentPage := u.currentPage.getD g.currentPage,
    currentValue := u.currentValue.getD g.currentValue,
    targetDate := u.targetDate.getD g.targetDate,
    isActive := u.isActive.getD g.isActive }

/-- `PATCH /goals/:id` (`UpdateGoal`): 404 when the goal does not exist,
otherwise apply the supplied fields and return the re-selected goal. -/
def updateGoal (st : Store) (goalId : String) (u : GoalUpdate) :
    Except ApiError (Goal × Store) :=
  match findGoal st goalId with
  | none => .error .notFound
  | some _ =>
    let st1 := setGoal st goalId (applyGoalUpdate u)
    match findGoal st1 goalId with
    | some g => .ok (g, st1)
    | none => .error .notFound

/-- The partial-update body of `PATCH /goals/:goalId/logs/:logId`.
`note` present means the request supplied it; the stored value is then
`note || null`. -/
structure LogPatch where
  value : Option Int := none
  note : Option String := none
  logDate : Option Int := none
deriving DecidableEq, Repr

/-- Apply the log patch field list (`UPDATE goal_logs SET ... WHERE id = ?`). -/
def applyLogPatch (p : LogPatch) (l : GoalLog) : GoalLog :=
  let l1 := match p.value with | some v => { l with value := v } | none => l
  let l2 := match p.note with
            | some s => { l1 with note := if s = "" then none else some s }
            | none => l1
  match p.logDate with | some d => { l2 with logDate := d } | none => l2

/-- `PATCH /goals/:goalId/logs/:logId` (`EditLog`): require the log (by id
and goal id) and the goal, apply the patch directly to the log row, and —
only when `value` was supplied — recompute the goal's cached value:
latest-log value for reading/numeric, a period re-scan (daily fallback being
today) for frequency. -/
def editLog (st : Store) (goalId : String) (logId : Nat) (p : LogPatch)
    (today : Int) : Except ApiError (GoalLog × Goal × Store) :=
  match st.logs.find? (fun l => l.id == logId && l.goalId == goalId) with
  | none => .error .notFound
  | some _ =>
    match findGoal st goalId with
    | none => .error .notFound
    | some goal =>
      let st1 := { st with logs := st.logs.map (fun l =>
        if l.id == logId then applyLogPatch p l else l) }
      let st2 :=
        if p.value.isSome then
          match goal.goalType with
          | .reading =>
            setGoal st1 goalId (fun g => { g with currentPage := latestLogValue st1.logs goalId })
          | .frequency =>
            let ps := periodStartFor goal.frequencyPeriod today today
            let count := countFrequencyLogs st1.logs goalId ps
            setGoal st1 goalId (fun g => { g with currentValue := (count : Int) })
          | .numeric =>
            setGoal st1 goalId (fun g => { g with currentValue := latestLogValue st1.logs goalId })
        else st1
      match st2.logs.find? (fun l => l.id == logId), findGoal st2 goalId with
      | some log, some g => .ok (log, g, st2)
      | _, _ => .error .notFound

/-- The `periodProgress` object `{current, target}` of the stats bundle. -/
structure PeriodProgress where
  current : Nat
  target : Int
deriving DecidableEq, Repr

/-- The statistics bundle returned by `calculateGoalStats` (the `GoalStats`
response type, with the derived fields). -/
structure GoalStats where
  goal : Goal
  logs : List GoalLog
  subGoals : List Goal
  subGoalsCompleted : Nat
  velocity : Option Rat
  estimatedFinishDate : Option Int
  daysRemaining : Option Int
  progressPercent : Int
  streak : Nat
  periodProgress : Option PeriodProgress
deriving DecidableEq, Repr

/-- Insert a log into a date-sorted list, before the first entry whose date
is not smaller: a stable insertion step. -/
def insertByDate (a : GoalLog) : List GoalLog → List GoalLog
  | [] => [a]
  | b :: t => if b.logDate < a.logDate then b :: insertByDate a t else a :: b :: t

/-- `[...logs].sort((a, b) => new Date(a.log_date) - new Date(b.log_date))`:
a stable ascending sort by date (JS `Array.prototype.sort` is stable),
modelled as a structurally recursive insertion sort so the kernel can
evaluate it. -/
def sortByDate (l : List GoalLog) : List GoalLog :=
  l.foldr insertByDate []

/-- JS truthiness of the nullable integer `goal.total_pages`:
`null` and `0` are falsy. -/
def truthyOpt : Option Int → Bool
  | some n => n != 0
  | none => false

/-- Placeholder log used below the `logs.length >= 2` guard, where head and
last of the sorted list are known to exist. -/
def dummyLog : GoalLog :=
  { id := 0, goalId := "", logDate := 0, value := 0, note := none }

/-- `subGoals.filter(sg => sg.targetValue > 0 ? sg.currentValue >=
sg.targetValue : false).length`. -/
def subGoalsCompletedOf (subGoals : List Goal) : Nat :=
  (subGoals.filter (fun sg => 0 < sg.targetValue && sg.targetValue ≤ sg.currentValue)).length

/-- The streak loop of `calculateGoalStats`: for offsets `i = 0, …, 364`,
a logged day increments the streak and the scan continues; an unlogged day
stops the scan unless it is offset 0. -/
def streakFrom (logs : List GoalLog) (today : Int) : Nat → Nat → Nat
  | _, 0 => 0
  | i, fuel + 1 =>
    if logs.any (fun l => l.logDate == today - i) then
      1 + streakFrom logs today (i + 1) fuel
    else if 0 < i then 0
    else streakFrom logs today (i + 1) fuel

/-- The streak computed by `calculateGoalStats` (365-iteration loop). -/
def streakOf (logs : List GoalLog) (today : Int) : Nat :=
  streakFrom logs today 0 365

/-- The type-dispatched middle section of `calculateGoalStats` in
`src/server/src/routes/goals.ts`: computes
`(velocity, estimatedFinishDate, daysRemaining, progressPercent before
clamping, periodProgress)`. -/
def calcCore (goal : Goal) (logs : List GoalLog) (subGoals : List Goal)
    (today : Int) : Option Rat × Option Int × Option Int × Int × Option PeriodProgress :=
  if goal.goalType == .reading && truthyOpt goal.totalPages then
    let tp := goal.totalPages.getD 0
    let pp := jsRound (ratMul (ratDiv (ratOfInt goal.currentPage) (ratOfInt tp)) (ratOfInt 100))
    if 2 ≤ logs.length then
      let sorted := sortByDate logs
      let firstLog := sorted.headD dummyLog
      let lastLog := sorted.getLastD dummyLog
      let daysDiff : Int := jsMax 1 (lastLog.logDate - firstLog.logDate)
      let pagesDiff : Int := lastLog.value - firstLog.value
      let velocity : Rat := ratDiv (ratOfInt (jsRound (ratMul (ratDiv (ratOfInt pagesDiff) (ratOfInt daysDiff)) (ratOfInt 10)))) (ratOfInt 10)
      if 0 < velocity then
        let pagesRemaining : Int := tp - goal.currentPage
        let daysRemaining : Int := Rat.ceil (ratDiv (ratOfInt pagesRemaining) velocity)
        (some velocity, some (today + daysRemaining), some daysRemaining, pp, none)
      else
        (some velocity, none, none, pp, none)
    else
      (none, none, none, pp, none)
  else if goal.goalType == .frequency then
    let ps := periodStartFor goal.frequencyPeriod today today
    let periodLogs := logs.filter (fun l => ps ≤ l.logDate && l.value == 1)
    let pp : Int := if 0 < goal.targetValue
      then jsRound (ratMul (ratDiv (ratOfInt (periodLogs.length : Int))
        (ratOfInt goal.targetValue)) (ratOfInt 100))
      else 0
    (none, none, none, pp, some { current := periodLogs.length, target := goal.targetValue })
  else if goal.goalType == .numeric then
    let pp : Int :=
      if 0 < subGoals.length then
        jsRound (ratMul (ratDiv (ratOfInt (subGoalsCompletedOf subGoals : Int))
          (ratOfInt (subGoals.length : Int))) (ratOfInt 100))
      else if 0 < goal.targetValue then
        jsRound (ratMul (ratDiv (ratOfInt goal.currentValue)
          (ratOfInt goal.targetValue)) (ratOfInt 100))
      else 0
    (none, none, none, pp, none)
  else
    (none, none, none, 0, none)

/-- `calculateGoalStats` from `src/server/src/routes/goals.ts`, with "now"
made an explicit `today` parameter (the source reads the wall clock through
`new Date()` / `getWeekStart()`). -/
def calculateGoalStats (goal : Goal) (logs : List GoalLog) (subGoals : List Goal)
    (today : Int) : GoalStats :=
  { goal := goal
    logs := logs
    subGoals := subGoals
    subGoalsCompleted := subGoalsCompletedOf subGoals
    velocity := (calcCore goal logs subGoals today).1
    estimatedFinishDate := (calcCore goal logs subGoals today).2.1
    daysRemaining := (calcCore goal logs subGoals today).2.2.1
    progressPercent := jsMin (calcCore goal logs subGoals today).2.2.2.1 100
    streak := streakOf logs today
    periodProgress := (calcCore goal logs subGoals today).2.2.2.2 }

/-- The middle section of the `calculateGoalStats` copy in
`src/unnamed/part_005`.  It differs from `calcCore` in the reading branch
only: `daysDiff` gains an extra `1 +`, and `pagesDiff` is `lastLog.value`
alone (no subtraction of `firstLog.value`). -/
def calcCoreVariant (goal : Goal) (logs : List GoalLog) (subGoals : List Goal)
    (today : Int) : Option Rat × Option Int × Option Int × Int × Option PeriodProgress :=
  if goal.goalType == .reading && truthyOpt goal.totalPages then
    let tp := goal.totalPages.getD 0
    let pp := jsRound (ratMul (ratDiv (ratOfInt goal.currentPage) (ratOfInt tp)) (ratOfInt 100))
    if 2 ≤ logs.length then
      let sorted := sortByDate logs
      let firstLog := sorted.headD dummyLog
      let lastLog := sorted.getLastD dummyLog
      let daysDiff : Int := 1 + jsMax 1 (lastLog.logDate - firstLog.logDate)
      let pagesDiff : Int := lastLog.value
      let velocity : Rat := ratDiv (ratOfInt (jsRound (ratMul (ratDiv (ratOfInt pagesDiff) (ratOfInt daysDiff)) (ratOfInt 10)))) (ratOfInt 10)
      if 0 < velocity then
        let pagesRemaining : Int := tp - goal.currentPage
        let daysRemaining : Int := Rat.ceil (ratDiv (ratOfInt pagesRemaining) velocity)
        (some velocity, some (today + daysRemaining), some daysRemaining, pp, none)
      else
        (some velocity, none, none, pp, none)
    else
      (none, none, none, pp, none)
  else if goal.goalType == .frequency then
    let ps := periodStartFor goal.frequencyPeriod today today
    let periodLogs := logs.filter (fun l => ps ≤ l.logDate && l.value == 1)
    let pp : Int := if 0 < goal.targetValue
      then jsRound (ratMul (ratDiv (ratOfInt (periodLogs.length : Int))
        (ratOfInt goal.targetValue)) (ratOfInt 100))
      else 0
    (none, none, none, pp, some { current := periodLogs.length, target := goal.targetValue })
  else if goal.goalType == .numeric then
    let pp : Int :=
      if 0 < subGoals.length then
        jsRound (ratMul (ratDiv (ratOfInt (subGoalsCompletedOf subGoals : Int))
          (ratOfInt (subGoals.length : Int))) (ratOfInt 100))
      else if 0 < goal.targetValue then
        jsRound (ratMul (ratDiv (ratOfInt goal.currentValue)
          (ratOfInt goal.targetValue)) (ratOfInt 100))
      else 0
    (none, none, none, pp, none)
  else
    (none, none, none, 0, none)

/-- The `calculateGoalStats` copy in `src/unnamed/part_005`, with the same
explicit `today` parameter. -/
def calculateGoalStatsVariant (goal : Goal) (logs : List GoalLog) (subGoals : List Goal)
    (today : Int) : GoalStats :=
  { goal := goal
    logs := logs
    subGoals := subGoals
    subGoalsCompleted := subGoalsCompletedOf subGoals
    velocity := (calcCoreVariant goal logs subGoals today).1
    estimatedFinishDate := (calcCoreVariant goal logs subGoals today).2.1
    daysRemaining := (calcCoreVariant goal logs subGoals today).2.2.1
    progressPercent := jsMin (calcCoreVariant goal logs subGoals today).2.2.2.1 100
    streak := streakOf logs today
    periodProgress := (calcCoreVariant goal logs subGoals today).2.2.2.2 }

/-- Spec-side Monday-of-week truncation, as the spec's §4.2 words it
("today's date truncated to Monday-of-week").  Epoch day 4 (1970-01-05) is a
Monday. -/
def mondayWeekStart (d : Int) : Int :=
  d - (d + 3).emod 7

/-- Spec-side streak run: the number of consecutively logged days scanning
back from `d`, limited by `fuel`. -/
def graceRun (logs : List GoalLog) : Int → Nat → Nat
  | _, 0 => 0
  | d, fuel + 1 =>
    if logs.any (fun l => l.logDate == d) then 1 + graceRun logs (d - 1) fuel else 0

/-- Extract the returned goal snapshot from a goal-route result. -/
def okGoal : Except ApiError (GoalLog × Goal × Store) → Option Goal
  | .ok (_, g, _) => some g
  | _ => none

/-- Extract the returned log from a goal-route result. -/
def okLog : Except ApiError (GoalLog × Goal × Store) → Option GoalLog
  | .ok (l, _, _) => some l
  | _ => none

/-- Extract the post-call store from a goal-route result. -/
def okStore : Except ApiError (GoalLog × Goal × Store) → Option Store
  | .ok (_, _, s) => some s
  | _ => none

/-- Fixture for C1: a numeric goal with one existing log carrying a note. -/
def goalC1 : Goal :=
  { id := "g1", title := "t", goalType := .numeric, targetValue := 10, unit := "",
    currentValue := 5, totalPages := none, currentPage := 0,
    frequencyPeriod := none, targetDate := none, isActive := true }

/-- Fixture store for C1. -/
def stC1 : Store :=
  { goals := [goalC1],
    logs := [{ id := 1, goalId := "g1", logDate := 100, value := 5, note := some "a" }],
    nextLogId := 2 }

/-- Fixture for C2: a weekly frequency goal with an existing `value = 1` log
on the Sunday (epoch day 20002 = 2024-10-06) of the current week. -/
def goalC2 : Goal :=
  { id := "g", title := "t", goalType := .frequency, targetValue := 4, unit := "",
    currentValue := 0, totalPages := none, currentPage := 0,
    frequencyPeriod := some .weekly, targetDate := none, isActive := true }

/-- Fixture store for C2. -/
def stC2 : Store :=
  { goals := [goalC2],
    logs := [{ id := 1, goalId := "g", logDate := 20002, value := 1, note := none }],
    nextLogId := 2 }

/-- The goal snapshot returned by the C2 fixture call. -/
def goalC2out : Goal :=
  { goalC2 with currentValue := 2 }

/-- The store produced by the C2 fixture call. -/
def stC2out : Store :=
  { goals := [goalC2out],
    logs := [{ id := 1, goalId := "g", logDate := 20002, value := 1, note := none },
             { id := 2, goalId := "g", logDate := 20005, value := 1, note := none }],
    nextLogId := 3 }

/-- Fixture for C10: a weekly frequency goal (frequency logs use `value = 0`
as the "not done" flag). -/
def stC10 : Store :=
  { goals := [{ id := "f", title := "t", goalType := .frequency, targetValue := 4,
                unit := "", currentValue := 0, totalPages := none, currentPage := 0,
                frequencyPeriod := some .weekly, targetDate := none, isActive := true }],
    logs := [], nextLogId := 1 }

/-- The log table after `EditLog`'s `UPDATE goal_logs ... WHERE id = ?`. -/
def editedLogs (st : Store) (logId : Nat) (p : LogPatch) : List GoalLog :=
  st.logs.map (fun l => if l.id == logId then applyLogPatch p l else l)

/-- Fixture for C3: a reading goal whose cached `currentPage` is 50, with
two logs; the log with id 1 is the latest by date. -/
def goalC3 : Goal :=
  { id := "g", title := "t", goalType := .reading, targetValue := 0, unit := "",
    currentValue := 0, totalPages := some 300, currentPage := 50,
    frequencyPeriod := none, targetDate := none, isActive := true }

/-- Fixture store for C3. -/
def stC3 : Store :=
  { goals := [goalC3],
    logs := [{ id := 1, goalId := "g", logDate := 10, value := 50, note := none },
             { id := 2, goalId := "g", logDate := 5, value := 30, note := none }],
    nextLogId := 3 }

/-- Fixture for C8: a reading goal and an update supplying every mutable
field. -/
def goalC8 : Goal :=
  { id := "r", title := "t", goalType := .reading, targetValue := 0, unit := "",
    currentValue := 0, totalPages := some 300, currentPage := 10,
    frequencyPeriod := none, targetDate := none, isActive := true }

/-- Fixture store for C8. -/
def stC8 : Store :=
  { goals := [goalC8], logs := [], nextLogId := 1 }

/-- The update request used by the C8 witness: all eight accepted fields
supplied. -/
def updC8 : GoalUpdate :=
  { title := some "t2", targetValue := some 9, unit := some "u",
    totalPages := some (some 400), currentPage := some 20,
    currentValue := some 3, targetDate := some (some 100), isActive := some false }

/-- Fixture for C4: a numeric goal with a negative cached value. -/
def goalC4 : Goal :=
  { id := "n", title := "t", goalType := .numeric, targetValue := 10, unit := "",
    currentValue := -5, totalPages := none, currentPage := 0,
    frequencyPeriod := none, targetDate := none, isActive := true }

/-- Fixture goal for C6. -/
def goalC6 : Goal :=
  { id := "n6", title := "t", goalType := .numeric, targetValue := 10, unit := "",
    currentValue := 5, totalPages := none, currentPage := 0,
    frequencyPeriod := none, targetDate := none, isActive := true }

/-- Fixture logs for C6: one log on epoch day 100. -/
def logsC6 : List GoalLog :=
  [{ id := 1, goalId := "n6", logDate := 100, value := 1, note := none }]

/-- Fixture goal for C5. -/
def goalC5 : Goal :=
  { id := "s", title := "t", goalType := .numeric, targetValue := 10, unit := "",
    currentValue := 0, totalPages := none, currentPage := 0,
    frequencyPeriod := none, targetDate := none, isActive := true }

/-- Fixture logs for C5: logs exist exactly for yesterday (day 99) and the
day before (day 98) relative to today = day 100. -/
def logsC5 : List GoalLog :=
  [{ id := 1, goalId := "s", logDate := 99, value := 1, note := none },
   { id := 2, goalId := "s", logDate := 98, value := 1, note := none }]

/-- Fixture for C7: the spec's own example — `totalPages = 300`,
`currentPage = 50`, logs at day 19000 (value 0) and day 19005 (value 50),
given date-descending as the stats route loads them. -/
def goalC7 : Goal :=
  { id := "r7", title := "t", goalType := .reading, targetValue := 0, unit := "",
    currentValue := 0, totalPages := some 300, currentPage := 50,
    frequencyPeriod := none, targetDate := none, isActive := true }

/-- Fixture logs for C7. -/
def logsC7 : List GoalLog :=
  [{ id := 2, goalId := "r7", logDate := 19005, value := 50, note := none },
   { id := 1, goalId := "r7", logDate := 19000, value := 0, note := none }]

/-- Fixture logs for the C7 counterexample: two logs with equal values, so
the computed velocity is 0. -/
def logsC7z : List GoalLog :=
  [{ id := 2, goalId := "r7", logDate := 19005, value := 20, note := none },
   { id := 1, goalId := "r7", logDate := 19000, value := 20, note := none }]

theorem find?_map_if {α : Type} (p : α → Bool) (f : α → α)
    (hf : ∀ a, p (f a) = p a) :
    ∀ l : List α,
      (l.map (fun a => if p a then f a else a)).find? p = (l.find? p).map f := by
  intro l
  induction l with
  | nil => rfl
  | cons a t ih =>
    by_cases hp : p a = true
    · simp [List.find?_cons, hp, hf]
    · simp only [List.map_cons, if_neg hp, List.find?_cons]
      rw [Bool.eq_false_iff.mpr hp]
      exact ih

theorem setGoal_logs (st : Store) (gid : String) (f : Goal → Goal) :
    (setGoal st gid f).logs = st.logs := rfl

theorem upsert_goals (st : Store) (gid : String) (d v : Int) (n : Option String) :
    (upsertGoalLog st gid d v n).goals = st.goals := by
  unfold upsertGoalLog
  split <;> rfl

theorem findGoal_setGoal (st : Store) (gid : String) (f : Goal → Goal)
    (hf : ∀ g, (f g).id = g.id) :
    findGoal (setGoal st gid f) gid = (findGoal st gid).map f := by
  unfold findGoal setGoal
  exact find?_map_if (fun g => g.id == gid) f
    (fun g => by show ((f g).id == gid) = (g.id == gid); rw [hf g]) st.goals

theorem findLogByDate_upsert_existing (st : Store) (gid : String) (date v : Int)
    (n : Option String) (l0 : GoalLog)
    (h : findLogByDate st.logs gid date = some l0) :
    findLogByDate (upsertGoalLog st gid date v n).logs gid date =
      some { l0 with value := v,
                     note := match n with | some s => some s | none => l0.note } := by
  have h' : st.logs.find? (fun l => l.goalId == gid && l.logDate == date) = some l0 := h
  have hany : st.logs.any (fun l => l.goalId == gid && l.logDate == date) = true := by
    rw [List.any_eq_true]
    refine ⟨l0, List.mem_of_find?_eq_some h', ?_⟩
    simpa using List.find?_some h'
  unfold upsertGoalLog
  rw [if_pos hany]
  show findLogByDate _ gid date = _
  unfold findLogByDate at h ⊢
  rw [find?_map_if (fun l => l.goalId == gid && l.logDate == date)
    (fun l => { l with value := v, note := match n with | some s => some s | none => l.note })
    (fun l => rfl) st.logs, h]
  rfl

theorem findLogByDate_upsert_new (st : Store) (gid : String) (date v : Int)
    (n : Option String)
    (h : findLogByDate st.logs gid date = none) :
    findLogByDate (upsertGoalLog st gid date v n).logs gid date =
      some { id := st.nextLogId, goalId := gid, logDate := date, value := v, note := n } := by
  have hany : st.logs.any (fun l => l.goalId == gid && l.logDate == date) = false := by
    rw [Bool.eq_false_iff]
    intro hc
    rcases List.any_eq_true.mp hc with ⟨l, hmem, hp⟩
    unfold findLogByDate at h
    rw [List.find?_eq_none] at h
    exact h l hmem hp
  unfold upsertGoalLog
  rw [hany]
  show findLogByDate (st.logs ++ [_]) gid date = _
  unfold findLogByDate at h ⊢
  rw [List.find?_append, h]
  simp

theorem findGoal_upsert (st : Store) (gid gid2 : String) (date v : Int) (n : Option String) :
    findGoal (upsertGoalLog st gid2 date v n) gid = findGoal st gid := by
  unfold findGoal
  rw [upsert_goals]

theorem logProgress_eq (st : Store) (gid : String) (v : Int) (note : Option String)
    (ld : Option Int) (today : Int) (goal : Goal)
    (hg : findGoal st gid = some goal) :
    logProgress st gid (some v) note ld today =
      (let date := ld.getD today
       let st1 := upsertGoalLog st gid date v (jsNoteArg note)
       let f : Goal → Goal :=
         match goal.goalType with
         | .reading => fun g => { g with currentPage := v }
         | .frequency => fun g => { g with currentValue :=
             (countFrequencyLogs st1.logs gid (periodStartFor goal.frequencyPeriod today date) : Int) }
         | .numeric => fun g => { g with currentValue := v }
       let log' :=
         match findLogByDate st.logs gid date with
         | some l0 =>
           { l0 with value := v,
                     note := match jsNoteArg note with | some s => some s | none => l0.note }
         | none => { id := st.nextLogId, goalId := gid, logDate := date,
                     value := v, note := jsNoteArg note }
       .ok (log', f goal, setGoal st1 gid f)) := by
  simp only [logProgress, hg]
  have hlog : ∀ (f : Goal → Goal),
      findLogByDate (setGoal (upsertGoalLog st gid (ld.getD today) v (jsNoteArg note)) gid f).logs
          gid (ld.getD today) =
        some (match findLogByDate st.logs gid (ld.getD today) with
          | some l0 =>
            { l0 with value := v,
                      note := match jsNoteArg note with | some s => some s | none => l0.note }
          | none => { id := st.nextLogId, goalId := gid, logDate := ld.getD today,
                      value := v, note := jsNoteArg note }) := by
    intro f
    rw [setGoal_logs]
    cases hfl : findLogByDate st.logs gid (ld.getD today) with
    | some l0 => exact findLogByDate_upsert_existing st gid (ld.getD today) v (jsNoteArg note) l0 hfl
    | none => exact findLogByDate_upsert_new st gid (ld.getD today) v (jsNoteArg note) hfl
  have hgoal : ∀ (f : Goal → Goal), (∀ g, (f g).id = g.id) →
      findGoal (setGoal (upsertGoalLog st gid (ld.getD today) v (jsNoteArg note)) gid f) gid =
        some (f goal) := by
    intro f hf
    rw [findGoal_setGoal _ _ _ hf, findGoal_upsert, hg]
    rfl
  cases hty : goal.goalType with
  | reading =>
    rw [hlog (fun g => { g with currentPage := v }),
        hgoal (fun g => { g with currentPage := v }) (fun g => rfl)]
  | frequency =>
    rw [hlog _, hgoal (fun g => { g with currentValue :=
      (countFrequencyLogs (upsertGoalLog st gid (ld.getD today) v (jsNoteArg note)).logs gid
        (periodStartFor goal.frequencyPeriod today (ld.getD today)) : Int) }) (fun g => rfl)]
  | numeric =>
    rw [hlog (fun g => { g with currentValue := v }),
        hgoal (fun g => { g with currentValue := v }) (fun g => rfl)]

theorem logProgress_none_value (st : Store) (gid : String) (note : Option String)
    (ld : Option Int) (today : Int) (goal : Goal)
    (hg : findGoal st gid = some goal) :
    logProgress st gid none note ld today = .error .validationError := by
  simp only [logProgress, hg]

/-- C1: merge-upsert of progress logs.  When a log already exists for
`(goalId, d)`, a second `LogProgress(goalId, v, note, d)` succeeds and the
returned (stored) log has the new value, and the new note when it is
non-empty, otherwise the previously stored note. -/
theorem logProgress_merge_upsert (st : Store) (gid : String) (d v : Int)
    (noteStr : String) (today : Int) (goal : Goal) (oldLog : GoalLog)
    (hg : findGoal st gid = some goal)
    (hl : findLogByDate st.logs gid d = some oldLog) :
    ∃ log g' st',
      logProgress st gid (some v) (some noteStr) (some d) today = .ok (log, g', st') ∧
        log.value = v ∧
        log.note = (if noteStr = "" then oldLog.note else some noteStr) := by
  have heq := logProgress_eq st gid v (some noteStr) (some d) today goal hg
  simp only [Option.getD_some, hl] at heq
  refine ⟨_, _, _, heq, rfl, ?_⟩
  by_cases hs : noteStr = "" <;> simp [jsNoteArg, hs]

/-- Witness for C1: logging `(value 5, note "a")` then `(value 7, note "")`
on the same date keeps note `"a"` and takes value `7`. -/
theorem logProgress_merge_upsert_witness :
    findGoal stC1 "g1" = some goalC1 ∧
    findLogByDate stC1.logs "g1" 100 =
      some { id := 1, goalId := "g1", logDate := 100, value := 5, note := some "a" } ∧
    ∃ log g' st',
      logProgress stC1 "g1" (some 7) (some "") (some 100) 200 = .ok (log, g', st') ∧
        log.value = 7 ∧
        log.note = (if "" = "" then
          (some "a" : Option String) else some "") :=
  ⟨by decide, by decide,
   logProgress_merge_upsert stC1 "g1" 100 7 "" 200 goalC1
     { id := 1, goalId := "g1", logDate := 100, value := 5, note := some "a" }
     (by decide) (by decide)⟩

/-- C2 (amended: the weekly period starts on Sunday, not Monday —
`getWeekStart` goes back to `d.getDate() - d.getDay()`, i.e. Sunday):
after a successful `LogProgress` on a frequency goal, the goal's cached
`currentValue` is the count of that goal's stored logs with
`logDate ≥ periodStart` and `value = 1`, where `periodStart` is the Sunday
of the current week for `weekly`, the first of the current month for
`monthly`, and the log's own date otherwise. -/
theorem logProgress_frequency_recompute (st : Store) (gid : String) (v : Int)
    (note : Option String) (ld : Option Int) (today : Int) (goal : Goal)
    (log : GoalLog) (g' : Goal) (st' : Store)
    (hg : findGoal st gid = some goal) (hty : goal.goalType = .frequency)
    (hok : logProgress st gid (some v) note ld today = .ok (log, g', st')) :
    g'.currentValue = (countFrequencyLogs st'.logs gid
      (match goal.frequencyPeriod with
       | some .weekly => getWeekStart today
       | some .monthly => monthStart today
       | _ => ld.getD today) : Int) := by
  rw [logProgress_eq st gid v note ld today goal hg] at hok
  simp only [hty] at hok
  simp only [Except.ok.injEq, Prod.mk.injEq] at hok
  obtain ⟨-, h2, h3⟩ := hok
  rw [← h2, ← h3, setGoal_logs]
  rfl

/-- Witness for C2 (amended): on Wednesday 2024-10-09 (epoch day 20005), the
weekly re-scan counts from Sunday 20002, giving `currentValue = 2`. -/
theorem logProgress_frequency_recompute_witness :
    findGoal stC2 "g" = some goalC2 ∧
    goalC2.goalType = .frequency ∧
    logProgress stC2 "g" (some 1) none none 20005 =
      .ok ({ id := 2, goalId := "g", logDate := 20005, value := 1, note := none },
           goalC2out, stC2out) ∧
    goalC2out.currentValue = (countFrequencyLogs stC2out.logs "g"
      (match goalC2.frequencyPeriod with
       | some .weekly => getWeekStart 20005
       | some .monthly => monthStart 20005
       | _ => (none : Option Int).getD 20005) : Int) :=
  ⟨by decide, by decide, by decide,
   logProgress_frequency_recompute stC2 "g" 1 none none 20005 goalC2
     { id := 2, goalId := "g", logDate := 20005, value := 1, note := none }
     goalC2out stC2out (by decide) (by decide) (by decide)⟩

/-- Counterexample for C2 as stated: with the same fixture, the code counts
from Sunday 20002 and stores `currentValue = 2`, while the count from
Monday-of-week (20003, the spec's claimed period start) is `1`. -/
theorem logProgress_frequency_monday_counterexample :
    (okGoal (logProgress stC2 "g" (some 1) none none 20005)).map Goal.currentValue =
      some 2 ∧
    (okStore (logProgress stC2 "g" (some 1) none none 20005)).map
      (fun s => (countFrequencyLogs s.logs "g" (mondayWeekStart 20005) : Int)) =
      some 1 := by
  constructor
  · decide
  · decide

/-- C10: `LogProgress` with `value = 0` is accepted (the guard rejects only
`undefined`/`null`) and stores a log with value `0`; with an absent value it
fails with the validation error. -/
theorem logProgress_zero_value (st : Store) (gid : String) (note : Option String)
    (ld : Option Int) (today : Int) (goal : Goal)
    (hg : findGoal st gid = some goal) :
    (∃ log g' st',
      logProgress st gid (some 0) note ld today = .ok (log, g', st') ∧ log.value = 0) ∧
    logProgress st gid none note ld today = .error .validationError := by
  constructor
  · have heq := logProgress_eq st gid 0 note ld today goal hg
    refine ⟨_, _, _, heq, ?_⟩
    cases hfl : findLogByDate st.logs gid (ld.getD today) <;> rfl
  · exact logProgress_none_value st gid note ld today goal hg

/-- Witness for C10 at a concrete frequency goal. -/
theorem logProgress_zero_value_witness :
    findGoal stC10 "f" = some
      { id := "f", title := "t", goalType := .frequency, targetValue := 4,
        unit := "", currentValue := 0, totalPages := none, currentPage := 0,
        frequencyPeriod := some .weekly, targetDate := none, isActive := true } ∧
    ((∃ log g' st',
        logProgress stC10 "f" (some 0) none none 20005 = .ok (log, g', st') ∧
          log.value = 0) ∧
      logProgress stC10 "f" none none none 20005 = .error .validationError) :=
  ⟨by decide,
   logProgress_zero_value stC10 "f" none none 20005
     { id := "f", title := "t", goalType := .frequency, targetValue := 4,
       unit := "", currentValue := 0, totalPages := none, currentPage := 0,
       frequencyPeriod := some .weekly, targetDate := none, isActive := true }
     (by decide)⟩

theorem findGoal_setLogs (st : Store) (gid : String) (l : List GoalLog) :
    findGoal { st with logs := l } gid = findGoal st gid := rfl

theorem findGoal_setGoal_found (st : Store) (gid : String) (f : Goal → Goal)
    (goal : Goal) (hf : ∀ g, (f g).id = g.id) (hg : findGoal st gid = some goal) :
    findGoal (setGoal st gid f) gid = some (f goal) := by
  rw [findGoal_setGoal _ _ _ hf, hg]
  rfl

theorem editLog_eq (st : Store) (gid : String) (logId : Nat) (p : LogPatch)
    (today : Int) (l0 : GoalLog) (goal : Goal)
    (hl : st.logs.find? (fun l => l.id == logId && l.goalId == gid) = some l0)
    (hg : findGoal st gid = some goal) :
    editLog st gid logId p today =
      (let st1 : Store := { st with logs := st.logs.map (fun l =>
         if l.id == logId then applyLogPatch p l else l) }
       let f : Goal → Goal :=
         match goal.goalType with
         | .reading => fun g => { g with currentPage := latestLogValue st1.logs gid }
         | .frequency => fun g => { g with currentValue :=
             (countFrequencyLogs st1.logs gid (periodStartFor goal.frequencyPeriod today today) : Int) }
         | .numeric => fun g => { g with currentValue := latestLogValue st1.logs gid }
       let st2 := if p.value.isSome then setGoal st1 gid f else st1
       match st2.logs.find? (fun l => l.id == logId), findGoal st2 gid with
       | some log, some g => .ok (log, g, st2)
       | _, _ => .error .notFound) := by
  simp only [editLog, hl, hg]
  cases goal.goalType <;> rfl

theorem applyLogPatch_id (p : LogPatch) (l : GoalLog) : (applyLogPatch p l).id = l.id := by
  unfold applyLogPatch
  cases p.value <;> cases p.note <;> cases p.logDate <;> rfl

theorem find?_editedLogs_isSome (st : Store) (gid : String) (logId : Nat)
    (p : LogPatch) (l0 : GoalLog)
    (hl : st.logs.find? (fun l => l.id == logId && l.goalId == gid) = some l0) :
    ∃ l1, (editedLogs st logId p).find? (fun l => l.id == logId) = some l1 := by
  have hmem : l0 ∈ st.logs := List.mem_of_find?_eq_some hl
  have hp : (l0.id == logId && l0.goalId == gid) = true := by
    simpa using List.find?_some hl
  have hid : (l0.id == logId) = true := by
    simp only [Bool.and_eq_true] at hp
    exact hp.1
  have hsome : ((editedLogs st logId p).find? (fun l => l.id == logId)).isSome := by
    rw [List.find?_isSome]
    refine ⟨if l0.id == logId then applyLogPatch p l0 else l0,
      List.mem_map.mpr ⟨l0, hmem, rfl⟩, ?_⟩
    rw [if_pos hid]
    show ((applyLogPatch p l0).id == logId) = true
    rw [applyLogPatch_id]
    exact hid
  exact Option.isSome_iff_exists.mp hsome

/-- C3 (amended): after a successful `EditLog` that supplies `value`, the
goal's cached value is recomputed — for Reading and Numeric goals from the
log most recent by `(logDate desc, id desc)` over the post-edit log table,
and for Frequency goals by the period re-scan whose Daily/fallback period
start is today's date (not the log's own date).  An `EditLog` that does not
supply `value` leaves the goal record unchanged. -/
theorem editLog_recompute (st : Store) (gid : String) (logId : Nat) (p : LogPatch)
    (today : Int) (l0 : GoalLog) (goal : Goal)
    (hl : st.logs.find? (fun l => l.id == logId && l.goalId == gid) = some l0)
    (hg : findGoal st gid = some goal) :
    (p.value = none → okGoal (editLog st gid logId p today) = some goal) ∧
    (p.value.isSome = true →
      okGoal (editLog st gid logId p today) = some (
        match goal.goalType with
        | .reading =>
          { goal with currentPage := latestLogValue (editedLogs st logId p) gid }
        | .frequency =>
          { goal with currentValue := (countFrequencyLogs (editedLogs st logId p) gid
              (periodStartFor goal.frequencyPeriod today today) : Int) }
        | .numeric =>
          { goal with currentValue := latestLogValue (editedLogs st logId p) gid })) := by
  obtain ⟨l1, hl1⟩ := find?_editedLogs_isSome st gid logId p l0 hl
  have hl1' : (st.logs.map (fun l => if l.id == logId then applyLogPatch p l else l)).find?
      (fun l => l.id == logId) = some l1 := hl1
  have hgoal1 : findGoal { st with logs := st.logs.map (fun l =>
      if l.id == logId then applyLogPatch p l else l) } gid = some goal := hg
  rw [editLog_eq st gid logId p today l0 goal hl hg]
  constructor
  · intro hv
    simp only [hv, Option.isSome_none, Bool.false_eq_true, if_false]
    rw [hl1', hgoal1]
    rfl
  · intro hiss
    simp only [hiss, if_true]
    cases hty : goal.goalType with
    | reading =>
      rw [show ((setGoal { st with logs := st.logs.map (fun l =>
              if l.id == logId then applyLogPatch p l else l) } gid (fun g =>
            { g with currentPage := latestLogValue (st.logs.map (fun l =>
                if l.id == logId then applyLogPatch p l else l)) gid })).logs.find?
            (fun l => l.id == logId)) = some l1 from hl1,
          findGoal_setGoal_found _ gid (fun g =>
            { g with currentPage := latestLogValue (st.logs.map (fun l =>
                if l.id == logId then applyLogPatch p l else l)) gid })
            goal (fun g => rfl) hgoal1]
      rw [hty]
      rfl
    | frequency =>
      rw [show ((setGoal { st with logs := st.logs.map (fun l =>
              if l.id == logId then applyLogPatch p l else l) } gid (fun g =>
            { g with currentValue := (countFrequencyLogs (st.logs.map (fun l =>
                if l.id == logId then applyLogPatch p l else l)) gid
                (periodStartFor goal.frequencyPeriod today today) : Int) })).logs.find?
            (fun l => l.id == logId)) = some l1 from hl1,
          findGoal_setGoal_found _ gid (fun g =>
            { g with currentValue := (countFrequencyLogs (st.logs.map (fun l =>
                if l.id == logId then applyLogPatch p l else l)) gid
                (periodStartFor goal.frequencyPeriod today today) : Int) })
            goal (fun g => rfl) hgoal1]
      rw [hty]
      rfl
    | numeric =>
      rw [show ((setGoal { st with logs := st.logs.map (fun l =>
              if l.id == logId then applyLogPatch p l else l) } gid (fun g =>
            { g with currentValue := latestLogValue (st.logs.map (fun l =>
                if l.id == logId then applyLogPatch p l else l)) gid })).logs.find?
            (fun l => l.id == logId)) = some l1 from hl1,
          findGoal_setGoal_found _ gid (fun g =>
            { g with currentValue := latestLogValue (st.logs.map (fun l =>
                if l.id == logId then applyLogPatch p l else l)) gid })
            goal (fun g => rfl) hgoal1]
      rw [hty]
      rfl

/-- Witness for C3 (amended): editing log 1's value to 40 recomputes
`currentPage` from the latest post-edit log. -/
theorem editLog_recompute_witness :
    stC3.logs.find? (fun l => l.id == 1 && l.goalId == "g") =
      some { id := 1, goalId := "g", logDate := 10, value := 50, note := none } ∧
    findGoal stC3 "g" = some goalC3 ∧
    okGoal (editLog stC3 "g" 1 ⟨some 40, none, none⟩ 20) = some (
      match goalC3.goalType with
      | .reading =>
        { goalC3 with currentPage := latestLogValue (editedLogs stC3 1 ⟨some 40, none, none⟩) "g" }
      | .frequency =>
        { goalC3 with currentValue := (countFrequencyLogs (editedLogs stC3 1 ⟨some 40, none, none⟩) "g"
            (periodStartFor goalC3.frequencyPeriod 20 20) : Int) }
      | .numeric =>
        { goalC3 with currentValue := latestLogValue (editedLogs stC3 1 ⟨some 40, none, none⟩) "g" }) :=
  ⟨by decide, by decide,
   (editLog_recompute stC3 "g" 1 ⟨some 40, none, none⟩ 20
     { id := 1, goalId := "g", logDate := 10, value := 50, note := none }
     goalC3 (by decide) (by decide)).2 (by decide)⟩

/-- Counterexample for C3 as stated: an `EditLog` that changes only the
log's date (no value supplied) succeeds but does not recompute the cached
value — `currentPage` stays 50 although the latest log after the edit has
value 30. -/
theorem editLog_no_recompute_counterexample :
    (okGoal (editLog stC3 "g" 1 ⟨none, none, some 1⟩ 20)).map Goal.currentPage = some 50 ∧
    (okStore (editLog stC3 "g" 1 ⟨none, none, some 1⟩ 20)).map
      (fun s => latestLogValue s.logs "g") = some 30 := by
  constructor
  · decide
  · decide

theorem applyGoalUpdate_goalType (u : GoalUpdate) (g : Goal) :
    (applyGoalUpdate u g).goalType = g.goalType := rfl

/-- C8: goal type immutability.  `PATCH /goals/:id` accepts only title,
targetValue, unit, totalPages, currentPage, currentValue, targetDate and
isActive; for every successful `UpdateGoal`, the returned goal's type equals
the stored goal's type before the call. -/
theorem updateGoal_preserves_type (st : Store) (gid : String) (u : GoalUpdate)
    (g0 g' : Goal) (st' : Store)
    (hg : findGoal st gid = some g0)
    (hok : updateGoal st gid u = .ok (g', st')) :
    g'.goalType = g0.goalType := by
  simp only [updateGoal, hg] at hok
  rw [findGoal_setGoal_found st gid (applyGoalUpdate u) g0
    (fun g => rfl) hg] at hok
  simp only [Except.ok.injEq, Prod.mk.injEq] at hok
  rw [← hok.1]
  exact applyGoalUpdate_goalType u g0

/-- Witness for C8: a full-field update leaves `goalType` untouched. -/
theorem updateGoal_preserves_type_witness :
    findGoal stC8 "r" = some goalC8 ∧
    updateGoal stC8 "r" updC8 =
      .ok ({ id := "r", title := "t2", goalType := .reading, targetValue := 9,
             unit := "u", currentValue := 3, totalPages := some 400, currentPage := 20,
             frequencyPeriod := none, targetDate := some 100, isActive := false },
           { goals := [{ id := "r", title := "t2", goalType := .reading, targetValue := 9,
                         unit := "u", currentValue := 3, totalPages := some 400,
                         currentPage := 20, frequencyPeriod := none,
                         targetDate := some 100, isActive := false }],
             logs := [], nextLogId := 1 }) ∧
    ({ id := "r", title := "t2", goalType := .reading, targetValue := 9,
       unit := "u", currentValue := 3, totalPages := some 400, currentPage := 20,
       frequencyPeriod := none, targetDate := some 100,
       isActive := false } : Goal).goalType = goalC8.goalType :=
  ⟨by decide, by decide,
   updateGoal_preserves_type stC8 "r" updC8 goalC8
     { id := "r", title := "t2", goalType := .reading, targetValue := 9,
       unit := "u", currentValue := 3, totalPages := some 400, currentPage := 20,
       frequencyPeriod := none, targetDate := some 100, isActive := false }
     { goals := [{ id := "r", title := "t2", goalType := .reading, targetValue := 9,
                   unit := "u", currentValue := 3, totalPages := some 400,
                   currentPage := 20, frequencyPeriod := none,
                   targetDate := some 100, isActive := false }],
       logs := [], nextLogId := 1 }
     (by decide) (by decide)⟩

/-- C4 (amended: `progressPercent` is clamped only from above —
`Math.min(progressPercent, 100)` — so it never exceeds 100, but it is not
clamped below 0 and can be negative when cached values are negative):
for every input, the statistics bundle's `progressPercent` is at most 100. -/
theorem stats_progress_le_100 (goal : Goal) (logs : List GoalLog)
    (subGoals : List Goal) (today : Int) :
    (calculateGoalStats goal logs subGoals today).progressPercent ≤ 100 := by
  show jsMin ((calcCore goal logs subGoals today).2.2.2.1) 100 ≤ 100
  unfold jsMin
  split <;> omega

/-- Counterexample for C4 as stated: a numeric goal with
`currentValue = -5, targetValue = 10` reports `progressPercent = -50`,
outside `[0, 100]`. -/
theorem stats_progress_negative_counterexample :
    (calculateGoalStats goalC4 [] [] 0).progressPercent = -50 := by decide

/-- C6 (amended: the calculator is deterministic given its three inputs AND
the current date — it reads no storage, but `new Date()` is an implicit
fourth input used by the streak scan, the frequency period start, and the
estimated finish date): two calls with equal goal, logs, sub-goals and equal
"today" return identical bundles. -/
theorem calculateGoalStats_deterministic (g1 g2 : Goal) (l1 l2 : List GoalLog)
    (s1 s2 : List Goal) (t1 t2 : Int)
    (hg : g1 = g2) (hl : l1 = l2) (hs : s1 = s2) (ht : t1 = t2) :
    calculateGoalStats g1 l1 s1 t1 = calculateGoalStats g2 l2 s2 t2 := by
  rw [hg, hl, hs, ht]

/-- Witness for C6 (amended) at concrete inputs. -/
theorem calculateGoalStats_deterministic_witness :
    goalC6 = goalC6 ∧
    calculateGoalStats goalC6 logsC6 [] 100 = calculateGoalStats goalC6 logsC6 [] 100 :=
  ⟨by decide,
   calculateGoalStats_deterministic goalC6 goalC6 logsC6 logsC6 [] [] 100 100
     rfl rfl rfl rfl⟩

/-- Counterexample for C6 as stated: identical `(goal, recentLogs, subGoals)`
but different wall-clock dates give different bundles (streak 1 when today is
the logged day 100, streak 0 when today is day 200). -/
theorem calculateGoalStats_clock_counterexample :
    (calculateGoalStats goalC6 logsC6 [] 100).streak = 1 ∧
    (calculateGoalStats goalC6 logsC6 [] 200).streak = 0 ∧
    calculateGoalStats goalC6 logsC6 [] 100 ≠ calculateGoalStats goalC6 logsC6 [] 200 := by
  refine ⟨by decide, by decide, by decide⟩

theorem streakFrom_succ (logs : List GoalLog) (today : Int) (i n : Nat) :
    streakFrom logs today i (n + 1) =
      if logs.any (fun l => l.logDate == today - i) then
        1 + streakFrom logs today (i + 1) n
      else if 0 < i then 0
      else streakFrom logs today (i + 1) n := rfl

theorem graceRun_succ (logs : List GoalLog) (d : Int) (n : Nat) :
    graceRun logs d (n + 1) =
      if logs.any (fun l => l.logDate == d) then 1 + graceRun logs (d - 1) n
      else 0 := rfl

theorem streakFrom_eq_graceRun (logs : List GoalLog) (today : Int) :
    ∀ (fuel i : Nat), 0 < i →
      streakFrom logs today i fuel = graceRun logs (today - i) fuel := by
  intro fuel
  induction fuel with
  | zero => intro i _; rfl
  | succ n ih =>
    intro i hi
    rw [streakFrom_succ, graceRun_succ]
    by_cases h : logs.any (fun l => l.logDate == today - (i : Int)) = true
    · rw [if_pos h, if_pos h, ih (i + 1) (by omega)]
      have : today - ((i : Nat) + 1 : Nat) = today - (i : Int) - 1 := by
        push_cast
        ring
      rw [this]
    · rw [if_neg h, if_neg h, if_pos hi]

/-- C5: the streak equals (1 if today is logged else 0) plus the length of
the run of consecutively logged days scanning back from yesterday, capped by
the 365-day window — i.e. a missing log today neither increments nor breaks
the streak, and the scan stops at the first unlogged day with offset `i > 0`.
In particular, with logs only for yesterday and the day before, the streak
is 2. -/
theorem stats_streak_grace (goal : Goal) (logs : List GoalLog)
    (subGoals : List Goal) (today : Int) :
    ((calculateGoalStats goal logs subGoals today).streak =
      (if logs.any (fun l => l.logDate == today) then 1 else 0) +
        graceRun logs (today - 1) 364) ∧
    (calculateGoalStats goalC5 logsC5 [] 100).streak = 2 := by
  constructor
  · show streakOf logs today = _
    unfold streakOf
    rw [show (365 : Nat) = 364 + 1 from rfl, streakFrom_succ]
    norm_num
    rw [streakFrom_eq_graceRun logs today 364 1 (by omega)]
    norm_num
    by_cases h : ∃ x ∈ logs, x.logDate = today
    · rw [if_pos h, if_pos h]
    · rw [if_neg h, if_neg h, zero_add]
  · decide

/-- C7 (amended: when at least 2 logs exist but the computed velocity is not
positive, `daysRemaining` and `estimatedFinishDate` are null while `velocity`
keeps the computed non-positive value — it is null only when the reading
branch or the 2-log guard is not taken): for a Reading goal with non-zero
`totalPages` and at least two logs, velocity is the 1-decimal rounding of
`(last.value - first.value) / max(1, dateDiff)` over the date-sorted logs,
and when it is positive, `daysRemaining = ceil((totalPages - currentPage) /
velocity)` and `estimatedFinishDate = today + daysRemaining`. -/
theorem stats_reading_velocity (goal : Goal) (logs : List GoalLog)
    (subs : List Goal) (today tp : Int)
    (hty : goal.goalType = .reading) (htp : goal.totalPages = some tp)
    (htp0 : tp ≠ 0) (hlen : 2 ≤ logs.length) :
    (let sorted := sortByDate logs
     let firstLog := sorted.headD dummyLog
     let lastLog := sorted.getLastD dummyLog
     let velocity : Rat := ratDiv (ratOfInt (jsRound (ratMul
       (ratDiv (ratOfInt (lastLog.value - firstLog.value))
         (ratOfInt (jsMax 1 (lastLog.logDate - firstLog.logDate)))) (ratOfInt 10))))
       (ratOfInt 10)
     let daysRemaining : Int := Rat.ceil (ratDiv (ratOfInt (tp - goal.currentPage)) velocity)
     (calculateGoalStats goal logs subs today).velocity = some velocity ∧
     (0 < velocity →
       (calculateGoalStats goal logs subs today).daysRemaining = some daysRemaining ∧
       (calculateGoalStats goal logs subs today).estimatedFinishDate =
         some (today + daysRemaining)) ∧
     (¬ 0 < velocity →
       (calculateGoalStats goal logs subs today).daysRemaining = none ∧
       (calculateGoalStats goal logs subs today).estimatedFinishDate = none)) := by
  have hcond : (goal.goalType == GoalType.reading && truthyOpt goal.totalPages) = true := by
    rw [hty, htp]
    simp [truthyOpt, htp0]
  have hC : calcCore goal logs subs today =
      (let sorted := sortByDate logs
       let firstLog := sorted.headD dummyLog
       let lastLog := sorted.getLastD dummyLog
       let velocity : Rat := ratDiv (ratOfInt (jsRound (ratMul
         (ratDiv (ratOfInt (lastLog.value - firstLog.value))
           (ratOfInt (jsMax 1 (lastLog.logDate - firstLog.logDate)))) (ratOfInt 10))))
         (ratOfInt 10)
       let pp := jsRound (ratMul (ratDiv (ratOfInt goal.currentPage) (ratOfInt tp))
         (ratOfInt 100))
       let daysRemaining : Int := Rat.ceil (ratDiv (ratOfInt (tp - goal.currentPage)) velocity)
       if 0 < velocity then
         (some velocity, some (today + daysRemaining), some daysRemaining, pp, none)
       else
         (some velocity, none, none, pp, none)) := by
    unfold calcCore
    rw [if_pos hcond, if_pos hlen, htp]
    rfl
  dsimp only at hC ⊢
  refine ⟨?_, fun hv => ⟨?_, ?_⟩, fun hv => ⟨?_, ?_⟩⟩
  · show (calcCore goal logs subs today).1 = _
    rw [hC]
    split_ifs <;> rfl
  · show (calcCore goal logs subs today).2.2.1 = _
    rw [hC, if_pos hv]
  · show (calcCore goal logs subs today).2.1 = _
    rw [hC, if_pos hv]
  · show (calcCore goal logs subs today).2.2.1 = _
    rw [hC, if_neg hv]
  · show (calcCore goal logs subs today).2.1 = _
    rw [hC, if_neg hv]

/-- Witness for C7 (amended): the fixture yields `velocity = 10.0`,
`daysRemaining = 25`, `estimatedFinishDate = today + 25`. -/
theorem stats_reading_velocity_witness :
    goalC7.goalType = .reading ∧ goalC7.totalPages = some 300 ∧ (300 : Int) ≠ 0 ∧
    2 ≤ logsC7.length ∧
    (let sorted := sortByDate logsC7
     let firstLog := sorted.headD dummyLog
     let lastLog := sorted.getLastD dummyLog
     let velocity : Rat := ratDiv (ratOfInt (jsRound (ratMul
       (ratDiv (ratOfInt (lastLog.value - firstLog.value))
         (ratOfInt (jsMax 1 (lastLog.logDate - firstLog.logDate)))) (ratOfInt 10))))
       (ratOfInt 10)
     let daysRemaining : Int := Rat.ceil (ratDiv (ratOfInt (300 - goalC7.currentPage)) velocity)
     (calculateGoalStats goalC7 logsC7 [] 19010).velocity = some velocity ∧
     (0 < velocity →
       (calculateGoalStats goalC7 logsC7 [] 19010).daysRemaining = some daysRemaining ∧
       (calculateGoalStats goalC7 logsC7 [] 19010).estimatedFinishDate =
         some (19010 + daysRemaining)) ∧
     (¬ 0 < velocity →
       (calculateGoalStats goalC7 logsC7 [] 19010).daysRemaining = none ∧
       (calculateGoalStats goalC7 logsC7 [] 19010).estimatedFinishDate = none)) :=
  ⟨by decide, by decide, by decide, by decide,
   stats_reading_velocity goalC7 logsC7 [] 19010 300
     (by decide) (by decide) (by decide) (by decide)⟩

/-- Counterexample for C7 as stated: with two logs of equal value the
velocity is not positive, yet the bundle reports `velocity = 0`, not null
(only `daysRemaining`/`estimatedFinishDate` are null). -/
theorem stats_velocity_zero_counterexample :
    (calculateGoalStats goalC7 logsC7z [] 19010).velocity = some 0 ∧
    ¬ (calculateGoalStats goalC7 logsC7z [] 19010).velocity = none ∧
    (calculateGoalStats goalC7 logsC7z [] 19010).daysRemaining = none ∧
    (calculateGoalStats goalC7 logsC7z [] 19010).estimatedFinishDate = none := by
  refine ⟨by decide, by decide, by decide, by decide⟩

/-- C9 (amended: the two copies of `calculateGoalStats` agree on every field
except the Reading-velocity-derived ones — the `src/unnamed/part_005` copy
computes `daysDiff` with an extra `1 +` and takes `pagesDiff = lastLog.value`
without subtracting `firstLog.value`, so `velocity`, `daysRemaining` and
`estimatedFinishDate` generally differ for Reading goals with ≥ 2 logs):
for every input the two return the same goal/log/sub-goal echoes,
`subGoalsCompleted`, `streak`, `progressPercent` and `periodProgress`. -/
theorem statsVariant_agree (goal : Goal) (logs : List GoalLog)
    (subs : List Goal) (today : Int) :
    (calculateGoalStatsVariant goal logs subs today).goal =
      (calculateGoalStats goal logs subs today).goal ∧
    (calculateGoalStatsVariant goal logs subs today).logs =
      (calculateGoalStats goal logs subs today).logs ∧
    (calculateGoalStatsVariant goal logs subs today).subGoals =
      (calculateGoalStats goal logs subs today).subGoals ∧
    (calculateGoalStatsVariant goal logs subs today).subGoalsCompleted =
      (calculateGoalStats goal logs subs today).subGoalsCompleted ∧
    (calculateGoalStatsVariant goal logs subs today).streak =
      (calculateGoalStats goal logs subs today).streak ∧
    (calculateGoalStatsVariant goal logs subs today).progressPercent =
      (calculateGoalStats goal logs subs today).progressPercent ∧
    (calculateGoalStatsVariant goal logs subs today).periodProgress =
      (calculateGoalStats goal logs subs today).periodProgress := by
  have hpp : (calcCoreVariant goal logs subs today).2.2.2.1 =
      (calcCore goal logs subs today).2.2.2.1 := by
    unfold calcCoreVariant calcCore
    dsimp only
    split_ifs <;> rfl
  have hper : (calcCoreVariant goal logs subs today).2.2.2.2 =
      (calcCore goal logs subs today).2.2.2.2 := by
    unfold calcCoreVariant calcCore
    dsimp only
    split_ifs <;> rfl
  refine ⟨rfl, rfl, rfl, rfl, rfl, ?_, hper⟩
  show jsMin (calcCoreVariant goal logs subs today).2.2.2.1 100 =
    jsMin (calcCore goal logs subs today).2.2.2.1 100
  rw [hpp]

/-- Counterexample for C9 as stated: on the spec's reading example the
original computes `velocity = 10.0` while the `part_005` copy computes
`velocity = 8.3` (`= round(50 / (1 + 5) * 10) / 10`), so the two bundles
differ. -/
theorem statsVariant_velocity_counterexample :
    (calculateGoalStats goalC7 logsC7 [] 19010).velocity = some 10 ∧
    (calculateGoalStatsVariant goalC7 logsC7 [] 19010).velocity = some (mkRat 83 10) ∧
    calculateGoalStats goalC7 logsC7 [] 19010 ≠
      calculateGoalStatsVariant goalC7 logsC7 [] 19010 := by
  refine ⟨by decide, by decide, by decide⟩

theorem ratOfInt_eq (n : Int) : ratOfInt n = (n : Rat) := by
  rw [ratOfInt, Rat.mkRat_eq_div]
  norm_num

theorem ratAdd_eq (a b : Rat) : ratAdd a b = a + b := by
  have ha : ((a.den : Int) : ℚ) ≠ 0 := by exact_mod_cast a.den_nz
  have hb : ((b.den : Int) : ℚ) ≠ 0 := by exact_mod_cast b.den_nz
  rw [ratAdd, Rat.mkRat_eq_div]
  conv_rhs => rw [← Rat.num_div_den a, ← Rat.num_div_den b]
  push_cast
  field_simp

theorem ratMul_eq (a b : Rat) : ratMul a b = a * b := by
  have ha : ((a.den : Int) : ℚ) ≠ 0 := by exact_mod_cast a.den_nz
  have hb : ((b.den : Int) : ℚ) ≠ 0 := by exact_mod_cast b.den_nz
  rw [ratMul, Rat.mkRat_eq_div]
  conv_rhs => rw [← Rat.num_div_den a, ← Rat.num_div_den b]
  push_cast
  field_simp

theorem ratDiv_eq (a b : Rat) : ratDiv a b = a / b := by
  have ha : ((a.den : Int) : ℚ) ≠ 0 := by exact_mod_cast a.den_nz
  have hb : ((b.den : Int) : ℚ) ≠ 0 := by exact_mod_cast b.den_nz
  rw [ratDiv]
  rcases lt_trichotomy b.num 0 with hneg | hzero | hpos
  · rw [if_neg (by omega)]
    rw [Rat.mkRat_eq_div]
    conv_rhs => rw [← Rat.num_div_den a, ← Rat.num_div_den b]
    have hb0 : ((b.num : ℚ)) ≠ 0 := by exact_mod_cast hneg.ne
    have htn : (((-b.num).toNat : ℚ)) = -(b.num : ℚ) := by
      have h1 : ((-b.num).toNat : Int) = -b.num := Int.toNat_of_nonneg (by omega)
      exact_mod_cast congrArg (fun z : Int => (z : ℚ)) h1
    push_cast
    rw [htn]
    field_simp
  · rw [if_pos (by omega)]
    have hb0 : b = 0 := Rat.num_eq_zero.mp hzero
    rw [hb0]
    simp [Rat.mkRat_eq_div]
  · rw [if_pos (by omega)]
    rw [Rat.mkRat_eq_div]
    conv_rhs => rw [← Rat.num_div_den a, ← Rat.num_div_den b]
    have hb0 : ((b.num : ℚ)) ≠ 0 := by exact_mod_cast hpos.ne'
    have htn : ((b.num.toNat : ℚ)) = (b.num : ℚ) := by
      have h1 : (b.num.toNat : Int) = b.num := Int.toNat_of_nonneg (by omega)
      exact_mod_cast congrArg (fun z : Int => (z : ℚ)) h1
    push_cast
    rw [htn]
    field_simp

theorem jsRound_eq (q : Rat) : jsRound q = Int.floor (q + 1 / 2) := by
  rw [jsRound, ratAdd_eq, Rat.floor_def]
  rw [show (mkRat 1 2 : Rat) = 1 / 2 from by rw [Rat.mkRat_eq_div]; norm_num]
  exact (Rat.floor_def' _)

theorem ratCeil_eq (q : Rat) : Rat.ceil q = Int.ceil q := by
  rw [Rat.ceil]
  split_ifs with h
  · conv_rhs => rw [← (Rat.den_eq_one_iff q).mp h]
    rw [Int.ceil_intCast]
  · have hfl : ⌊q⌋ = q.num / q.den := Rat.floor_def
    rw [← hfl]
    symm
    rw [Int.ceil_eq_iff]
    constructor
    · push_cast
      simp only [add_sub_cancel_right]
      rcases (Int.floor_le q).lt_or_eq with hlt | heq
      · exact hlt
      · exact absurd (by rw [← heq, Rat.den_intCast]) h
    · push_cast
      exact (Int.lt_floor_add_one q).le

theorem jsMin_eq (a b : Int) : jsMin a b = min a b := by
  rw [jsMin, min_def]

theorem jsMax_eq (a b : Int) : jsMax a b = max a b := by
  rw [jsMax, max_def]
